import Mathlib

/-!
Verification of the SmartTOdoList backend's derived-status engine and
AI-request lifecycle tracker, shallowly embedded from the Python/Django
sources under backend/.

Modelling conventions:
* Python `datetime` values are integers (`Int`).
* The model methods and properties read the clock as `models.timezone.now()`
  where `models` is `django.db.models` — a module with no `timezone`
  attribute (the views and serializers use the correct
  `from django.utils import timezone`). Every such call therefore raises
  `AttributeError` at runtime. Fallible code is embedded with `Except`: a
  method that raises returns `Except.error` carrying the error string and,
  where relevant, the dirty in-memory instance (Python mutates `self` field
  by field before the raise, but `save()` is never reached, so nothing
  persists).
* Python `float` scores become rationals (`ℚ`), so the threshold comparisons
  of the source (`>= 80`, `>= 60`, ...) are exact.
* Python strings where character-level operations matter (title validation,
  content preview) are lists of characters (`List Char`), matching Python's
  view of a string as a sequence of code points; other string fields stay
  `String`. JSON payloads that the code only stores and never inspects
  (input_data, response_data, token_usage) are modelled as opaque `String`s.
* Django model rows live in lists; a `save()` replaces the row in the list.
-/

/-- Python strings as character sequences, for character-level operations. -/
abbrev PyStr := List Char

/-- Python `str.strip()`: remove leading and trailing whitespace. -/
def pythonStrip (s : PyStr) : PyStr :=
  ((s.dropWhile Char.isWhitespace).reverse.dropWhile Char.isWhitespace).reverse

/-- Python truthiness of an optional float: `None`, `0` and `0.0` are falsy,
every other float is truthy (the semantics of the `if processing_time:`
guard at backend/ai_integration/models.py line 87 — unreachable in the
current code, because line 86 raises first; kept as documentation of the
guard). -/
def pyTruthyFloat : Option ℚ → Bool
  | none => false
  | some q => decide (q ≠ 0)

/-- The exception raised by every `models.timezone.now()` call in the model
files: `django.db.models` has no `timezone` attribute. -/
def attributeError : String :=
  "AttributeError: module django.db.models has no attribute timezone"

/-! ## Task data model (backend/tasks/models.py) -/

/-- `Task.STATUS_CHOICES` (models.py lines 25-30). -/
inductive TaskStatus
  | todo
  | in_progress
  | completed
  | cancelled
deriving DecidableEq, Repr

/-- `Task.PRIORITY_CHOICES` (models.py lines 32-37). -/
inductive TaskPriority
  | low
  | medium
  | high
  | urgent
deriving DecidableEq, Repr

/-- The `Task` model (backend/tasks/models.py lines 22-98). Foreign keys are
primary-key numbers; JSON blobs the claims never inspect are omitted from the
row (ai_suggested_tags, context_insights). -/
structure TaskRow where
  id : Nat
  title : PyStr
  description : PyStr
  status : TaskStatus
  priority : TaskPriority
  priority_score : ℚ
  deadline : Option Int
  ai_suggested_deadline : Option Int
  category : Option Nat
  assigned_to : Nat
  estimated_duration : Option Int
  actual_duration : Option Int
  created_at : Int
  completed_at : Option Int
deriving DecidableEq, Repr

/-- Default of the `priority_score` field (models.py line 47). -/
def taskDefaultPriorityScore : ℚ := 50

/-- The field validators `MinValueValidator(0.0), MaxValueValidator(100.0)`
on `Task.priority_score` (models.py line 48): a candidate value passes
validation iff it is within both bounds. -/
def priority_score_valid (x : ℚ) : Bool :=
  decide (0 ≤ x) && decide (x ≤ 100)

/-- `Task.mark_completed` (models.py lines 103-107): line 105 sets
status := completed on the in-memory instance, then line 106 evaluates
`models.timezone.now()`, which raises AttributeError; `completed_at` is never
assigned and `save()` (line 107) never runs. The error carries the dirty
in-memory instance. -/
def TaskRow.mark_completed (t : TaskRow) : Except (String × TaskRow) TaskRow :=
  let t1 : TaskRow := { t with status := .completed }
  Except.error (attributeError, t1)

/-- `Task.is_overdue` (models.py lines 109-114): when a deadline is set and
the status is not in [completed, cancelled], line 113 compares the deadline
against `models.timezone.now()`, which raises AttributeError; on every other
path the property returns False without touching the clock. -/
def TaskRow.is_overdue (t : TaskRow) : Except String Bool :=
  match t.deadline with
  | some _ =>
      if t.status ≠ .completed ∧ t.status ≠ .cancelled then Except.error attributeError
      else Except.ok false
  | none => Except.ok false

/-- `Task.urgency_level` (models.py lines 116-128): evaluates `is_overdue`
first (propagating its AttributeError), returns "overdue" if it were true,
otherwise falls through to the priority_score thresholds. -/
def TaskRow.urgency_level (t : TaskRow) : Except String String :=
  match t.is_overdue with
  | Except.error e => Except.error e
  | Except.ok true => Except.ok "overdue"
  | Except.ok false =>
      if t.priority_score ≥ 80 then Except.ok "critical"
      else if t.priority_score ≥ 60 then Except.ok "high"
      else if t.priority_score ≥ 40 then Except.ok "medium"
      else Except.ok "low"

/-- `TaskCreateUpdateSerializer.validate_title`
(backend/tasks/serializers.py lines 90-94): reject when the stripped title
has fewer than 3 characters, otherwise accept and return the stripped title. -/
def validate_title (value : PyStr) : Except String PyStr :=
  if (pythonStrip value).length < 3 then
    Except.error "Title must be at least 3 characters long."
  else Except.ok (pythonStrip value)

/-! ## Bulk update (backend/tasks/serializers.py lines 138-154,
backend/tasks/views.py lines 95-119) -/

/-- A value appearing in the `updates` dict of a bulk-update request. Fields
outside the allow-list carry whatever JSON value the client sent; we model
such values as raw strings. -/
inductive UpdateValue
  | vStatus (s : TaskStatus)
  | vPriority (p : TaskPriority)
  | vCategory (c : Option Nat)
  | vDeadline (d : Option Int)
  | vRaw (s : String)
deriving DecidableEq, Repr

/-- The allow-list of `TaskBulkUpdateSerializer.validate_updates`
(serializers.py line 148). -/
def allowed_bulk_fields : List String := ["status", "priority", "category", "deadline"]

/-- `TaskBulkUpdateSerializer.validate_updates` (serializers.py lines
146-154): reject the whole dict when any key is outside the allow-list. -/
def validate_updates (updates : List (String × UpdateValue)) :
    Except String (List (String × UpdateValue)) :=
  let invalid := (updates.map Prod.fst).filter (fun k => !(allowed_bulk_fields.contains k))
  if invalid.isEmpty then Except.ok updates
  else Except.error ("Invalid fields for bulk update: " ++ String.intercalate ", " invalid)

/-- Apply a single key/value pair of a validated bulk update to a task row,
as `tasks.update(**updates)` does column-wise (views.py line 112). Keys that
name no updatable column leave the row unchanged (validation has already
excluded them). -/
def applyField (t : TaskRow) (kv : String × UpdateValue) : TaskRow :=
  match kv.2 with
  | .vStatus s => if kv.1 = "status" then { t with status := s } else t
  | .vPriority p => if kv.1 = "priority" then { t with priority := p } else t
  | .vCategory c => if kv.1 = "category" then { t with category := c } else t
  | .vDeadline d => if kv.1 = "deadline" then { t with deadline := d } else t
  | .vRaw _ => t

/-- Apply every pair of a validated bulk-update dict to a task row. -/
def applyUpdates (t : TaskRow) (updates : List (String × UpdateValue)) : TaskRow :=
  updates.foldl applyField t

/-- `TaskViewSet.bulk_update` (views.py lines 95-119) over a task store.
Returns the store after the request together with an error message when the
request was rejected. Serializer field checks: `task_ids` and `updates` are
non-empty (`allow_empty=False`), then `validate_updates` runs; the view then
checks that every requested id belongs to the requesting user, and only then
performs the update on the matching rows. -/
def bulk_update (store : List TaskRow) (user : Nat) (task_ids : List Nat)
    (updates : List (String × UpdateValue)) : List TaskRow × Option String :=
  if task_ids.isEmpty then (store, some "This list may not be empty.")
  else if updates.isEmpty then (store, some "This dictionary may not be empty.")
  else
    match validate_updates updates with
    | Except.error e => (store, some e)
    | Except.ok u =>
        let owned := store.filter (fun t => t.assigned_to == user && task_ids.contains t.id)
        if owned.length ≠ task_ids.length then
          (store, some "Some tasks not found or access denied")
        else
          (store.map (fun t =>
            if t.assigned_to == user && task_ids.contains t.id then applyUpdates t u else t),
           none)

/-! ## Context entries (backend/context/models.py) -/

/-- `ContextEntry.SOURCE_TYPES` (context/models.py lines 8-17). -/
inductive SourceType
  | whatsapp
  | email
  | notes
  | slack
  | teams
  | calendar
  | manual
  | other
deriving DecidableEq, Repr

/-- `ContextEntry.PROCESSING_STATUS` (context/models.py lines 19-24). -/
inductive ProcessingStatus
  | pending
  | processing
  | completed
  | failed
deriving DecidableEq, Repr

/-- The `ContextEntry` model (backend/context/models.py lines 5-95); JSON
blobs the claims never inspect are kept as simple lists/strings. -/
structure ContextEntry where
  id : Nat
  title : PyStr
  content : PyStr
  source_type : SourceType
  user : Nat
  timestamp : Int
  processing_status : ProcessingStatus
  extracted_tasks : List String
  relevance_score : ℚ
  processing_attempts : Int
deriving DecidableEq, Repr

/-- `ContextEntry.content_preview` (context/models.py lines 116-121): the
first 100 characters followed by "..." when the content is longer than 100
characters, otherwise the content unchanged. -/
def ContextEntry.content_preview (e : ContextEntry) : PyStr :=
  if e.content.length > 100 then e.content.take 100 ++ ['.', '.', '.']
  else e.content

/-! ## AI request lifecycle (backend/ai_integration/models.py) -/

/-- `AIRequest.STATUS_CHOICES` (ai_integration/models.py lines 36-42). -/
inductive AIStatus
  | pending
  | processing
  | completed
  | failed
  | timeout
deriving DecidableEq, Repr

/-- The `AIRequest` model (backend/ai_integration/models.py lines 23-77). -/
structure AIRequest where
  id : Nat
  user : Nat
  provider : Nat
  request_type : String
  status : AIStatus
  input_data : String
  prompt_template : String
  model_name : String
  response_data : Option String
  confidence_score : Option ℚ
  processing_time : Option ℚ
  token_usage : Option String
  cost_estimate : Option ℚ
  error_message : String
  retry_count : Int
  created_at : Int
  completed_at : Option Int
deriving DecidableEq, Repr

/-- `AIRequest.mark_completed` (ai_integration/models.py lines 82-89):
lines 84-85 set status := completed and store the response on the in-memory
instance, then line 86 evaluates `models.timezone.now()`, which raises
AttributeError; `completed_at` is never assigned, the `if processing_time:`
guard (lines 87-88, `pyTruthyFloat`) is never reached — whatever the value —
and `save()` (line 89) never runs. The error carries the dirty in-memory
instance. The `processing_time` argument is accepted but never examined. -/
def AIRequest.mark_completed (r : AIRequest) (response_data : String)
    (processing_time : Option ℚ) : Except (String × AIRequest) AIRequest :=
  let r1 : AIRequest :=
    { r with status := .completed, response_data := some response_data }
  Except.error (attributeError, r1)

/-- `AIRequest.mark_failed` (ai_integration/models.py lines 91-96): lines
93-94 set status := failed and store the error message on the in-memory
instance, then line 95 evaluates `models.timezone.now()`, which raises
AttributeError; `completed_at` is never assigned and `save()` (line 96)
never runs. The error carries the dirty in-memory instance. -/
def AIRequest.mark_failed (r : AIRequest) (error_message : String) :
    Except (String × AIRequest) AIRequest :=
  let r1 : AIRequest := { r with status := .failed, error_message := error_message }
  Except.error (attributeError, r1)

/-- The `AIModelPerformance` model (ai_integration/models.py lines 99-131):
the daily rollup keyed by (provider, model_name, request_type, date). -/
structure AIModelPerformance where
  provider : Nat
  model_name : String
  request_type : String
  total_requests : Int
  successful_requests : Int
  failed_requests : Int
  average_processing_time : ℚ
  average_confidence_score : ℚ
  total_cost : ℚ
  total_tokens_used : Int
  user_satisfaction_score : ℚ
  accuracy_score : ℚ
  date : Int
deriving DecidableEq, Repr

/-- `AIModelPerformance.success_rate` (ai_integration/models.py lines
133-138): successful/total × 100, and 0.0 when total is 0. -/
def AIModelPerformance.success_rate (p : AIModelPerformance) : ℚ :=
  if p.total_requests = 0 then 0
  else ((p.successful_requests : ℚ) / (p.total_requests : ℚ)) * 100

/-- The persistent state of the AI-integration app: the AIRequest table and
the AIModelPerformance table. -/
structure AIStore where
  requests : List AIRequest
  performance : List AIModelPerformance
deriving DecidableEq, Repr

/-- Invoking `mark_completed` on the request with the given id, observed at
the store: on success its `save()` would persist only that AIRequest row
(ai_integration/models.py lines 82-89 contain no other database write); when
the method raises, the exception propagates and no row is written. Returns
the store after the call together with the propagated error, if any. -/
def storeMarkCompleted (s : AIStore) (rid : Nat) (response_data : String)
    (processing_time : Option ℚ) : AIStore × Option String :=
  match s.requests.find? (fun r => r.id == rid) with
  | none => (s, none)
  | some r =>
      match r.mark_completed response_data processing_time with
      | Except.ok r1 =>
          ({ s with requests := s.requests.map (fun q => if q.id == rid then r1 else q) },
           none)
      | Except.error (e, _) => (s, some e)

/-- Invoking `mark_failed` on the request with the given id, observed at the
store: on success its `save()` would persist only that AIRequest row
(ai_integration/models.py lines 91-96 contain no other database write); when
the method raises, the exception propagates and no row is written. -/
def storeMarkFailed (s : AIStore) (rid : Nat) (error_message : String) :
    AIStore × Option String :=
  match s.requests.find? (fun r => r.id == rid) with
  | none => (s, none)
  | some r =>
      match r.mark_failed error_message with
      | Except.ok r1 =>
          ({ s with requests := s.requests.map (fun q => if q.id == rid then r1 else q) },
           none)
      | Except.error (e, _) => (s, some e)

/-! ## Concrete rows used by witnesses -/

/-- A concrete task: past deadline 5, status todo, score 50. -/
def exOverdueTask : TaskRow :=
  { id := 1, title := ['W', 'r', 'i', 't', 'e'], description := [],
    status := .todo, priority := .medium, priority_score := 50,
    deadline := some 5, ai_suggested_deadline := none, category := none,
    assigned_to := 1, estimated_duration := none, actual_duration := none,
    created_at := 0, completed_at := none }

/-- A concrete task: no deadline, score 10. -/
def exLowTask : TaskRow :=
  { exOverdueTask with id := 2, deadline := none, priority_score := 10 }

/-- A concrete AIRequest in the initial pending state. -/
def exPendingRequest : AIRequest :=
  { id := 1, user := 1, provider := 1, request_type := "context_analysis",
    status := .pending, input_data := "x:1", prompt_template := "",
    model_name := "gpt-4", response_data := none, confidence_score := none,
    processing_time := none, token_usage := none, cost_estimate := none,
    error_message := "", retry_count := 0, created_at := 0, completed_at := none }

/-! ## Task urgency (C1) -/

/-- `Task.urgency_level` raises AttributeError exactly for the tasks with a
deadline whose status is neither completed nor cancelled — precisely the
tasks the spec calls candidates for "overdue"; every other task is
classified by its score thresholds alone. -/
theorem urgency_level_error_iff (t : TaskRow) :
    (∃ e, t.urgency_level = Except.error e) ↔
      ((∃ d, t.deadline = some d) ∧
        t.status ≠ TaskStatus.completed ∧ t.status ≠ TaskStatus.cancelled) := by
  unfold TaskRow.urgency_level TaskRow.is_overdue
  cases hd : t.deadline with
  | none =>
      simp only [hd]
      constructor
      · rintro ⟨e, he⟩
        split_ifs at he
      · rintro ⟨⟨d, hd2⟩, -⟩
        cases hd2
  | some d =>
      by_cases hs : t.status ≠ TaskStatus.completed ∧ t.status ≠ TaskStatus.cancelled
      · simp only [hd, if_pos hs]
        exact ⟨fun _ => ⟨⟨d, rfl⟩, hs⟩, fun _ => ⟨attributeError, rfl⟩⟩
      · simp only [hd, if_neg hs]
        constructor
        · rintro ⟨e, he⟩
          split_ifs at he
        · rintro ⟨-, hs2⟩
          exact absurd hs2 hs

/-- C1 (code bug): the claim describes the intended behaviour, but every
`urgency_level` read of an active task with a deadline raises AttributeError
at `models.timezone.now()` (tasks/models.py line 113, reached via
`is_overdue`): the spec-scenario task (past deadline, status todo, score 50)
crashes instead of returning "overdue", an active task with a future
deadline crashes as well, and only deadline-free (or terminal-status) tasks
reach the score thresholds. -/
theorem c1_urgency_level_attribute_error :
    TaskRow.urgency_level exOverdueTask = Except.error attributeError
  ∧ TaskRow.urgency_level { exOverdueTask with deadline := some 1000000 } =
      Except.error attributeError
  ∧ TaskRow.urgency_level exLowTask = Except.ok "low" := by
  refine ⟨rfl, rfl, ?_⟩
  norm_num [TaskRow.urgency_level, TaskRow.is_overdue, exLowTask, exOverdueTask]

/-! ## AIRequest terminal transitions (C3, C5, C10) -/

/-- A concrete AI store: one pending request, no rollup rows. -/
def exAIStore : AIStore := { requests := [exPendingRequest], performance := [] }

/-- C3 (code bug): the claim describes the intended transition, but
`mark_completed` raises AttributeError at `models.timezone.now()`
(ai_integration/models.py line 86) before `save()`: on the spec-scenario
pending request the in-memory instance carried by the exception has status
and response_data assigned but `completed_at` still unset, and at the store
nothing persists — the row stays pending with no response and the error
propagates. -/
theorem c3_mark_completed_attribute_error :
    AIRequest.mark_completed exPendingRequest "x:1" (some 2) =
      Except.error (attributeError,
        { exPendingRequest with status := AIStatus.completed,
                                response_data := some "x:1" })
  ∧ (storeMarkCompleted exAIStore 1 "x:1" (some 2)).1 = exAIStore
  ∧ (storeMarkCompleted exAIStore 1 "x:1" (some 2)).2 = some attributeError :=
  ⟨rfl, rfl, rfl⟩

/-- C5 (code bug): the claim describes the intended transition, but
`mark_failed` raises AttributeError at `models.timezone.now()`
(ai_integration/models.py line 95) before `save()`: the in-memory instance
carried by the exception has status and error_message assigned (and
retry_count indeed untouched) but `completed_at` still unset, and at the
store nothing persists — the row is unchanged and the error propagates. -/
theorem c5_mark_failed_attribute_error :
    AIRequest.mark_failed exPendingRequest "boom" =
      Except.error (attributeError,
        { exPendingRequest with status := AIStatus.failed, error_message := "boom" })
  ∧ (storeMarkFailed exAIStore 1 "boom").1 = exAIStore
  ∧ (storeMarkFailed exAIStore 1 "boom").2 = some attributeError :=
  ⟨rfl, rfl, rfl⟩

/-- C10 (code bug): the claimed truthy-drop mechanism (the
`if processing_time:` guard at line 87) is unreachable: line 86 raises
AttributeError first, so `mark_completed` never records processing_time —
whether the argument is 0 or a nonzero duration — and never saves; the dirty
instance carried by the exception has processing_time untouched in both
cases. -/
theorem c10_processing_time_never_recorded :
    AIRequest.mark_completed exPendingRequest "r" (some 0) =
      Except.error (attributeError,
        { exPendingRequest with status := AIStatus.completed,
                                response_data := some "r" })
  ∧ AIRequest.mark_completed exPendingRequest "r" (some 2) =
      Except.error (attributeError,
        { exPendingRequest with status := AIStatus.completed,
                                response_data := some "r" }) :=
  ⟨rfl, rfl⟩

/-! ## AIModelPerformance success rate (C8) -/

/-- A concrete rollup row with 10 requests, 7 successful. -/
def exPerfRow : AIModelPerformance :=
  { provider := 1, model_name := "gpt-4", request_type := "context_analysis",
    total_requests := 10, successful_requests := 7, failed_requests := 3,
    average_processing_time := 0, average_confidence_score := 0,
    total_cost := 0, total_tokens_used := 0, user_satisfaction_score := 0,
    accuracy_score := 0, date := 0 }

/-- A concrete rollup row with no requests yet. -/
def exEmptyPerfRow : AIModelPerformance :=
  { exPerfRow with total_requests := 0, successful_requests := 0, failed_requests := 0 }

/-- C8: `success_rate` is successful/total × 100 when total_requests > 0 and
0.0 when total_requests = 0 (never a division by zero). -/
theorem c8_success_rate (p : AIModelPerformance) :
    (p.total_requests = 0 → p.success_rate = 0)
  ∧ (0 < p.total_requests →
      p.success_rate = (p.successful_requests : ℚ) / (p.total_requests : ℚ) * 100) := by
  unfold AIModelPerformance.success_rate
  constructor
  · intro h
    rw [if_pos h]
  · intro h
    rw [if_neg (by omega)]

/-- C8 witness: total=10, successful=7 gives 70; total=0 gives 0. -/
theorem c8_success_rate_witness :
    AIModelPerformance.success_rate exPerfRow = 70 ∧
    AIModelPerformance.success_rate exEmptyPerfRow = 0 := by
  constructor
  · have h := (c8_success_rate exPerfRow).2 (by norm_num [exPerfRow])
    rw [h]
    norm_num [exPerfRow]
  · exact (c8_success_rate exEmptyPerfRow).1 (by norm_num [exEmptyPerfRow, exPerfRow])

/-! ## Content preview (C7) -/

/-- A concrete context entry whose content has 250 characters. -/
def exLongEntry : ContextEntry :=
  { id := 1, title := [], content := List.replicate 250 'a',
    source_type := .email, user := 1, timestamp := 0,
    processing_status := .pending, extracted_tasks := [],
    relevance_score := 0, processing_attempts := 0 }

/-- A concrete context entry whose content has exactly 100 characters. -/
def exShortEntry : ContextEntry :=
  { exLongEntry with id := 2, content := List.replicate 100 'b' }

/-- C7: `content_preview` returns the content unchanged when its length is at
most 100 (including exactly 100), and the first 100 characters followed by
the 3-character "..." marker when longer, so the preview of longer content
has length 103. -/
theorem c7_content_preview (e : ContextEntry) :
    (e.content.length ≤ 100 → e.content_preview = e.content)
  ∧ (100 < e.content.length →
      e.content_preview = e.content.take 100 ++ ['.', '.', '.'] ∧
      e.content_preview.length = 103) := by
  constructor
  · intro h
    unfold ContextEntry.content_preview
    rw [if_neg (by omega)]
  · intro h
    unfold ContextEntry.content_preview
    rw [if_pos (by omega)]
    refine ⟨rfl, ?_⟩
    rw [List.length_append, List.length_take]
    simp
    omega

/-- C7 witness: content of length 250 previews to length 103; content of
length exactly 100 is returned unchanged. -/
theorem c7_content_preview_witness :
    (ContextEntry.content_preview exLongEntry).length = 103 ∧
    ContextEntry.content_preview exShortEntry = exShortEntry.content := by
  constructor
  · exact ((c7_content_preview exLongEntry).2 (by norm_num [exLongEntry])).2
  · exact (c7_content_preview exShortEntry).1 (by norm_num [exShortEntry, exLongEntry])

/-! ## Priority score range (C4) -/

/-- C4: the boundary validator on `priority_score` accepts a value iff it
lies in [0,100] (so out-of-range writes are rejected), the field default 50.0
is in range, and no other modelled task operation ever changes
`priority_score`: bulk update application cannot touch it, and
`mark_completed` always raises before saving, its dirty in-memory instance
differing from the original only in `status` (so `priority_score` is
preserved there too). -/
theorem c4_priority_score_range :
    (∀ x : ℚ, priority_score_valid x = true ↔ (0 ≤ x ∧ x ≤ 100))
  ∧ (0 ≤ taskDefaultPriorityScore ∧ taskDefaultPriorityScore ≤ 100)
  ∧ (∀ (t : TaskRow) (updates : List (String × UpdateValue)),
      (applyUpdates t updates).priority_score = t.priority_score)
  ∧ (∀ t : TaskRow, TaskRow.mark_completed t =
      Except.error (attributeError, { t with status := TaskStatus.completed })) := by
  refine ⟨?_, ?_, ?_, ?_⟩
  · intro x
    simp [priority_score_valid]
  · constructor <;> norm_num [taskDefaultPriorityScore]
  · intro t updates
    induction updates generalizing t with
    | nil => rfl
    | cons kv rest ih =>
        have hfield : (applyField t kv).priority_score = t.priority_score := by
          rcases kv with ⟨k, v⟩
          cases v <;> simp only [applyField] <;> split_ifs <;> rfl
        calc (applyUpdates t (kv :: rest)).priority_score
            = (applyUpdates (applyField t kv) rest).priority_score := rfl
          _ = (applyField t kv).priority_score := ih _
          _ = t.priority_score := hfield
  · intro t
    rfl

/-- C4 witness: 150 and -5 are rejected by the validator, 50 is accepted. -/
theorem c4_priority_score_range_witness :
    priority_score_valid 150 = false ∧ priority_score_valid (-5) = false ∧
    priority_score_valid 50 = true := by
  have h150 := (c4_priority_score_range).1 150
  have hm5 := (c4_priority_score_range).1 (-5)
  have h50 := (c4_priority_score_range).1 50
  refine ⟨?_, ?_, ?_⟩
  · cases hv : priority_score_valid 150 with
    | false => rfl
    | true => exact absurd (h150.mp hv).2 (by norm_num)
  · cases hv : priority_score_valid (-5) with
    | false => rfl
    | true => exact absurd (hm5.mp hv).1 (by norm_num)
  · exact h50.mpr (by norm_num)

/-! ## Bulk update rejection (C6) -/

/-- C6: a bulk update whose `updates` dict contains any field outside the
allow-list {status, priority, category, deadline} is rejected whole: the task
store is returned unchanged and an error message is reported, so no partial
application of the allowed fields happens. -/
theorem c6_bulk_update_rejects_unknown_field (store : List TaskRow) (user : Nat)
    (task_ids : List Nat) (updates : List (String × UpdateValue))
    (h : ∃ kv ∈ updates, allowed_bulk_fields.contains kv.1 = false) :
    (bulk_update store user task_ids updates).1 = store
  ∧ ∃ msg, (bulk_update store user task_ids updates).2 = some msg := by
  unfold bulk_update
  cases h1 : task_ids.isEmpty with
  | true => simp
  | false =>
      cases h2 : updates.isEmpty with
      | true => simp
      | false =>
          have hval : ∃ e, validate_updates updates = Except.error e := by
            obtain ⟨kv, hmem, hbad⟩ := h
            have hk : kv.1 ∈ (updates.map Prod.fst).filter
                (fun k => !(allowed_bulk_fields.contains k)) :=
              List.mem_filter.mpr ⟨List.mem_map_of_mem _ hmem, by simpa using hbad⟩
            have hne : ((updates.map Prod.fst).filter
                (fun k => !(allowed_bulk_fields.contains k))).isEmpty = false := by
              cases hcase : (updates.map Prod.fst).filter
                  (fun k => !(allowed_bulk_fields.contains k)) with
              | nil => rw [hcase] at hk; cases hk
              | cons a l => simp [List.isEmpty, hcase]
            simp only [validate_updates]
            rw [hne]
            exact ⟨_, rfl⟩
          obtain ⟨e, he⟩ := hval
          simp [h1, h2, he]

/-- A concrete bulk-update dict mixing the allowed "status" with the
disallowed "notes" field. -/
def exBadUpdates : List (String × UpdateValue) :=
  [("status", .vStatus .completed), ("notes", .vRaw "call mom")]

/-- C6 witness: the concrete request with fields "status" and "notes" against
a one-task store is rejected with the store unchanged. -/
theorem c6_bulk_update_rejects_unknown_field_witness :
    (bulk_update [exOverdueTask] 1 [1] exBadUpdates).1 = [exOverdueTask] ∧
    ∃ msg, (bulk_update [exOverdueTask] 1 [1] exBadUpdates).2 = some msg :=
  c6_bulk_update_rejects_unknown_field [exOverdueTask] 1 [1] exBadUpdates
    ⟨("notes", .vRaw "call mom"), by decide, by decide⟩

/-! ## Title validation (C9) -/

/-- Modelled from the claim's wording (C9), for comparison with the code's
check: the number of non-whitespace characters in a title. -/
def spec_nonWhitespaceCount (s : PyStr) : Nat :=
  (s.filter (fun c => !c.isWhitespace)).length

/-- Dropping a whitespace prefix does not change the non-whitespace
characters of a string. -/
theorem filter_not_ws_dropWhile_ws (l : List Char) :
    (l.dropWhile Char.isWhitespace).filter (fun c => !c.isWhitespace) =
      l.filter (fun c => !c.isWhitespace) := by
  induction l with
  | nil => rfl
  | cons a l ih =>
      by_cases h : a.isWhitespace
      · simpa [List.dropWhile_cons, List.filter_cons, h] using ih
      · simp [List.dropWhile_cons, List.filter_cons, h]

/-- `str.strip()` preserves the number of non-whitespace characters. -/
theorem nonWhitespaceCount_pythonStrip (s : PyStr) :
    spec_nonWhitespaceCount (pythonStrip s) = spec_nonWhitespaceCount s := by
  unfold pythonStrip spec_nonWhitespaceCount
  rw [List.filter_reverse, List.length_reverse, filter_not_ws_dropWhile_ws,
      List.filter_reverse, List.length_reverse, filter_not_ws_dropWhile_ws]

/-- The stripped title is at least as long as its number of non-whitespace
characters. -/
theorem nonWhitespaceCount_le_strip_length (s : PyStr) :
    spec_nonWhitespaceCount s ≤ (pythonStrip s).length := by
  rw [← nonWhitespaceCount_pythonStrip]
  exact List.length_filter_le _ _

/-- C9 counterexample: the title "a b" has only 2 non-whitespace characters,
yet `validate_title` accepts it (its stripped form "a b" has length 3),
contradicting the claim that every title with fewer than 3 non-whitespace
characters is rejected. -/
theorem c9_counterexample :
    spec_nonWhitespaceCount ['a', ' ', 'b'] = 2 ∧
    validate_title ['a', ' ', 'b'] = Except.ok ['a', ' ', 'b'] := by
  constructor
  · rfl
  · rfl

/-- C9 (amended): a title is rejected exactly when its
leading/trailing-whitespace-stripped form has fewer than 3 characters, and
accepted (returned stripped) otherwise; in particular any title with at
least 3 non-whitespace characters is accepted. -/
theorem c9_amended_title_validation (title : PyStr) :
    ((pythonStrip title).length < 3 →
      validate_title title = Except.error "Title must be at least 3 characters long.")
  ∧ (3 ≤ (pythonStrip title).length →
      validate_title title = Except.ok (pythonStrip title))
  ∧ (3 ≤ spec_nonWhitespaceCount title →
      validate_title title = Except.ok (pythonStrip title)) := by
  refine ⟨?_, ?_, ?_⟩
  · intro h
    unfold validate_title
    rw [if_pos h]
  · intro h
    unfold validate_title
    rw [if_neg (by omega)]
  · intro h
    have hle := nonWhitespaceCount_le_strip_length title
    unfold validate_title
    rw [if_neg (by omega)]

/-- C9 witness: the title "ab" is rejected, the title "top" is accepted. -/
theorem c9_amended_title_validation_witness :
    validate_title ['a', 'b'] = Except.error "Title must be at least 3 characters long." ∧
    validate_title ['t', 'o', 'p'] = Except.ok ['t', 'o', 'p'] := by
  constructor
  · exact (c9_amended_title_validation ['a', 'b']).1 (by decide)
  · exact (c9_amended_title_validation ['t', 'o', 'p']).2.1 (by decide)

/-! ## Terminal transitions and the performance rollup (C2) -/

/-- C2 (amended): invoking `mark_completed` or `mark_failed` never upserts an
AIModelPerformance row — the rollup table is left entirely unchanged by the
terminal-transition methods (each raises before its `save()`, and no code in
the repository writes the rollup table at all). -/
theorem c2_amended_no_rollup_update (s : AIStore) (rid : Nat) (rd msg : String)
    (pt : Option ℚ) :
    (storeMarkCompleted s rid rd pt).1.performance = s.performance
  ∧ (storeMarkFailed s rid msg).1.performance = s.performance := by
  constructor
  · unfold storeMarkCompleted
    cases s.requests.find? (fun r => r.id == rid) with
    | none => rfl
    | some r => rfl
  · unfold storeMarkFailed
    cases s.requests.find? (fun r => r.id == rid) with
    | none => rfl
    | some r => rfl

/-- C2 counterexample: invoking the terminal-transition method
`mark_completed` on the only (pending) request of the concrete store raises
AttributeError before saving, so the store — request row and rollup table
alike — is unchanged; in particular the AIModelPerformance table still holds
no row with total_requests incremented to 1, contradicting the claimed
upsert. -/
theorem c2_counterexample :
    (storeMarkCompleted exAIStore 1 "resp" none).2 = some attributeError
  ∧ (storeMarkCompleted exAIStore 1 "resp" none).1 = exAIStore
  ∧ ¬ ∃ p, p ∈ (storeMarkCompleted exAIStore 1 "resp" none).1.performance ∧
        p.total_requests = 1 := by
  refine ⟨rfl, rfl, ?_⟩
  rintro ⟨p, hp, -⟩
  have h1 : (storeMarkCompleted exAIStore 1 "resp" none).1 = exAIStore := rfl
  rw [h1] at hp
  simp [exAIStore] at hp
